import Mathlib

/-!
Verification of the Offer Resolution & Incentive Settlement Engine of the
dealer-nudging repository (cw_dns).  The definitions below are a shallow
embedding of the Python source: `database_setup.py` (schema),
`billing_system_mock.py` (offer resolver, payout computation, target update),
`app.py` (simulation-page incentive formula, approval actions) and
`sample_data.py` (the `schemes` / `scheme_products` schema carrying
`approval_status` and `is_slab_based`).  Money amounts are modelled as
rationals, SQL DATE / DATETIME values as natural numbers (any order-isomorphic
encoding), table rows as structures and tables as lists of rows.
-/

namespace DNS

/-- A row of the `deals` table (database_setup.py lines 19-32).  The mock
schema itself has no approval column; `approval_status` is the corresponding
field of the `schemes` table of the app schema (sample_data.py lines 72-78,
app.py `render_approvals`), which stores the same scheme entity, so that the
approval state of a scheme is expressible.  The resolver query of
billing_system_mock.py never reads it. -/
structure Deal where
  deal_id : Nat
  deal_status : String
  approval_status : String
  scheme_period_start : Nat
  scheme_period_end : Nat
  upload_timestamp : Nat
deriving Repr, DecidableEq

/-- A row of the `products` table, together with the `dealer_price_dp REAL`
column added by the test harness of billing_system_mock.py (ALTER TABLE at
line 205); `none` models SQL NULL. -/
structure Product where
  product_id : Nat
  dealer_price_dp : Option ℚ
deriving Repr, DecidableEq

/-- A row of the `deal_product_offers` table (database_setup.py lines 45-62),
restricted to the columns the engine reads. -/
structure Offer where
  offer_id : Nat
  deal_id : Nat
  product_id : Option Nat
  support_type : String
  payout_type : String
  payout_value : ℚ
  is_dealer_incentive : Bool
deriving Repr, DecidableEq

/-- The database state read by the resolver: the three joined tables. -/
structure Catalog where
  deals : List Deal
  products : List Product
  offers : List Offer
deriving Repr, DecidableEq

/-- One row of the result set of the resolver's SELECT: an offer joined with
its deal (on deal_id) and the sold product (on product_id). -/
structure ResolvedRow where
  offer : Offer
  deal : Deal
  product : Product
deriving Repr, DecidableEq

/-- The WHERE conditions of the resolver query that concern the deal
(billing_system_mock.py lines 26-28): deal_status = 'Active' and
DATE(scheme_period_start) <= sale_date <= DATE(scheme_period_end). -/
def dealQualifies (d : Deal) (saleDate : Nat) : Bool :=
  d.deal_status == "Active" &&
  decide (d.scheme_period_start ≤ saleDate) &&
  decide (saleDate ≤ d.scheme_period_end)

/-- The FROM/JOIN/WHERE part of the resolver query
(billing_system_mock.py lines 21-29): all offers for the given product whose
deal is Active with the sale date inside the scheme period, joined with the
product row.  `find?` models the primary-key joins on deal_id / product_id. -/
def resolveCandidates (c : Catalog) (pid saleDate : Nat) : List ResolvedRow :=
  c.offers.filterMap fun o =>
    if o.product_id == some pid then
      match c.deals.find? (fun d => d.deal_id == o.deal_id),
            c.products.find? (fun p => p.product_id == pid) with
      | some d, some p => if dealQualifies d saleDate then some ⟨o, d, p⟩ else none
      | _, _ => none
    else none

/-- The ORDER BY key of the resolver query: (upload_timestamp, offer_id). -/
def rowKey (r : ResolvedRow) : Nat × Nat :=
  (r.deal.upload_timestamp, r.offer.offer_id)

/-- Strict lexicographic comparison of ORDER BY keys: a sorts strictly before
b under ORDER BY upload_timestamp DESC, offer_id DESC when keyLt a b. -/
def keyLt (a b : Nat × Nat) : Bool :=
  decide (a.1 < b.1) || (a.1 == b.1 && decide (a.2 < b.2))

/-- ORDER BY upload_timestamp DESC, offer_id DESC LIMIT 1: the row whose key
is lexicographically greatest. -/
def pickLatest : List ResolvedRow → Option ResolvedRow
  | [] => none
  | r :: rs =>
    match pickLatest rs with
    | none => some r
    | some b => some (if keyLt (rowKey r) (rowKey b) then b else r)

/-- get_active_deal_for_product (billing_system_mock.py lines 9-36): run the
SELECT of `resolveCandidates` ordered by upload_timestamp DESC, offer_id DESC
with LIMIT 1; `none` models an empty result set (fetchone() returning None). -/
def get_active_deal_for_product (c : Catalog) (pid saleDate : Nat) :
    Option ResolvedRow :=
  pickLatest (resolveCandidates c pid saleDate)

theorem pickLatest_eq_none {l : List ResolvedRow} :
    pickLatest l = none ↔ l = [] := by
  cases l with
  | nil => simp [pickLatest]
  | cons r rs =>
    simp only [pickLatest]
    cases pickLatest rs <;> simp

theorem keyLt_irrefl (a : Nat × Nat) : keyLt a a = false := by
  simp [keyLt]

theorem keyLt_asymm {a b : Nat × Nat} (h : keyLt a b = true) :
    keyLt b a = false := by
  simp only [keyLt, Bool.or_eq_true, Bool.and_eq_true, decide_eq_true_eq,
    beq_iff_eq, Bool.or_eq_false_iff, Bool.and_eq_false_iff,
    decide_eq_false_iff_not, beq_eq_false_iff_ne] at *
  omega

theorem keyLt_neg_trans {a b c : Nat × Nat} (hab : keyLt a b = false)
    (hbc : keyLt b c = false) : keyLt a c = false := by
  simp only [keyLt, Bool.or_eq_false_iff, Bool.and_eq_false_iff,
    decide_eq_false_iff_not, beq_eq_false_iff_ne, beq_iff_eq] at *
  omega

theorem pickLatest_spec {l : List ResolvedRow} {r : ResolvedRow}
    (h : pickLatest l = some r) :
    r ∈ l ∧ ∀ x ∈ l, keyLt (rowKey r) (rowKey x) = false := by
  induction l generalizing r with
  | nil => simp [pickLatest] at h
  | cons a rs ih =>
    simp only [pickLatest] at h
    cases hrs : pickLatest rs with
    | none =>
      rw [hrs] at h
      have hnil : rs = [] := pickLatest_eq_none.mp hrs
      simp only [Option.some.injEq] at h
      subst h
      subst hnil
      exact ⟨List.mem_singleton.mpr rfl, by
        intro x hx
        simp only [List.mem_singleton] at hx
        subst hx
        exact keyLt_irrefl _⟩
    | some b =>
      rw [hrs] at h
      simp only [Option.some.injEq] at h
      obtain ⟨hbmem, hbmax⟩ := ih hrs
      by_cases hab : keyLt (rowKey a) (rowKey b) = true
      · rw [if_pos hab] at h
        subst h
        refine ⟨List.mem_cons_of_mem _ hbmem, ?_⟩
        intro x hx
        rcases List.mem_cons.mp hx with hx | hx
        · subst hx
          exact keyLt_asymm hab
        · exact hbmax x hx
      · rw [if_neg hab] at h
        subst h
        refine ⟨List.mem_cons_self _ _, ?_⟩
        intro x hx
        rcases List.mem_cons.mp hx with hx | hx
        · subst hx
          exact keyLt_irrefl _
        · exact keyLt_neg_trans (Bool.eq_false_iff.mpr hab) (hbmax x hx)

theorem mem_resolveCandidates {c : Catalog} {pid saleDate : Nat}
    {r : ResolvedRow} (h : r ∈ resolveCandidates c pid saleDate) :
    r.offer.product_id = some pid ∧ dealQualifies r.deal saleDate = true := by
  simp only [resolveCandidates, List.mem_filterMap] at h
  obtain ⟨o, -, ho⟩ := h
  split at ho
  · split at ho
    · split at ho
      · cases ho
        constructor <;> simp_all
      · cases ho
    · cases ho
  · cases ho

/-- A scheme that is Active and inside its period but whose approval_status
is still Pending. -/
def dealC1 : Deal :=
  { deal_id := 1, deal_status := "Active", approval_status := "Pending",
    scheme_period_start := 0, scheme_period_end := 100, upload_timestamp := 5 }

def productC1 : Product := { product_id := 1, dealer_price_dp := some 25000 }

def offerC1 : Offer :=
  { offer_id := 1, deal_id := 1, product_id := some 1,
    support_type := "Cashback", payout_type := "Percentage",
    payout_value := 10, is_dealer_incentive := false }

def catalogC1 : Catalog :=
  { deals := [dealC1], products := [productC1], offers := [offerC1] }

def rowC1 : ResolvedRow :=
  { offer := offerC1, deal := dealC1, product := productC1 }

/-- Claim C1 counterexample: the resolver of billing_system_mock.py returns
the offer of a scheme whose approval_status is Pending, because its WHERE
clause checks only deal_status and the period (the mock deals table has no
approval column at all), refuting the claim that no Offer of a non-Approved
Scheme is ever returned. -/
theorem pending_scheme_offer_resolved :
    get_active_deal_for_product catalogC1 1 10 = some rowC1 ∧
    rowC1.deal.approval_status = "Pending" ∧
    rowC1.deal.deal_status = "Active" ∧
    rowC1.deal.scheme_period_start ≤ 10 ∧ 10 ≤ rowC1.deal.scheme_period_end :=
  ⟨rfl, rfl, rfl, by decide, by decide⟩

/-- Claim C1 (amended): any Offer returned by offer resolution belongs to a
Scheme with status Active and the sale date within the scheme period
inclusive, and targets the requested product; approval_status is not
consulted, so Offers of non-Approved Schemes are returned as well. -/
theorem offer_resolution_checks_only_active_and_period (c : Catalog)
    (pid saleDate : Nat) (r : ResolvedRow)
    (h : get_active_deal_for_product c pid saleDate = some r) :
    r.deal.deal_status = "Active" ∧
    r.deal.scheme_period_start ≤ saleDate ∧
    saleDate ≤ r.deal.scheme_period_end ∧
    r.offer.product_id = some pid := by
  have hmem := (pickLatest_spec h).1
  obtain ⟨hp, hq⟩ := mem_resolveCandidates hmem
  simp only [dealQualifies, Bool.and_eq_true, decide_eq_true_eq,
    beq_iff_eq] at hq
  exact ⟨hq.1.1, hq.1.2, hq.2, hp⟩

theorem offer_resolution_checks_only_active_and_period_witness :
    rowC1.deal.deal_status = "Active" ∧
    rowC1.deal.scheme_period_start ≤ 10 ∧
    10 ≤ rowC1.deal.scheme_period_end ∧
    rowC1.offer.product_id = some 1 :=
  offer_resolution_checks_only_active_and_period catalogC1 1 10 rowC1 rfl

def dealC7a : Deal :=
  { deal_id := 1, deal_status := "Active", approval_status := "Approved",
    scheme_period_start := 0, scheme_period_end := 100, upload_timestamp := 5 }

def dealC7b : Deal :=
  { deal_id := 2, deal_status := "Active", approval_status := "Approved",
    scheme_period_start := 0, scheme_period_end := 100, upload_timestamp := 9 }

def offerC7a : Offer :=
  { offer_id := 1, deal_id := 1, product_id := some 1,
    support_type := "Cashback", payout_type := "Percentage",
    payout_value := 10, is_dealer_incentive := false }

def offerC7b : Offer :=
  { offer_id := 2, deal_id := 2, product_id := some 1,
    support_type := "Cashback", payout_type := "Percentage",
    payout_value := 5, is_dealer_incentive := false }

def productC7 : Product := { product_id := 1, dealer_price_dp := some 20000 }

def catalogC7 : Catalog :=
  { deals := [dealC7a, dealC7b], products := [productC7],
    offers := [offerC7a, offerC7b] }

def rowC7 : ResolvedRow :=
  { offer := offerC7b, deal := dealC7b, product := productC7 }

/-- Claim C7: whenever offer resolution returns an Offer, that Offer is
lexicographically maximal among all qualifying candidates under
(scheme upload_timestamp, offer id) - i.e. every other qualifying Offer has a
strictly older upload_timestamp, or the same upload_timestamp and an offer id
no larger, matching ORDER BY upload_timestamp DESC, offer_id DESC LIMIT 1. -/
theorem offer_resolution_latest_scheme_then_highest_offer (c : Catalog)
    (pid saleDate : Nat) (r : ResolvedRow)
    (h : get_active_deal_for_product c pid saleDate = some r) :
    r ∈ resolveCandidates c pid saleDate ∧
    ∀ x ∈ resolveCandidates c pid saleDate,
      x.deal.upload_timestamp < r.deal.upload_timestamp ∨
      (x.deal.upload_timestamp = r.deal.upload_timestamp ∧
       x.offer.offer_id ≤ r.offer.offer_id) := by
  obtain ⟨hmem, hmax⟩ := pickLatest_spec h
  refine ⟨hmem, fun x hx => ?_⟩
  have hk := hmax x hx
  simp only [keyLt, rowKey, Bool.or_eq_false_iff, Bool.and_eq_false_iff,
    decide_eq_false_iff_not, beq_eq_false_iff_ne, beq_iff_eq] at hk
  omega

theorem offer_resolution_latest_scheme_then_highest_offer_witness :
    rowC7 ∈ resolveCandidates catalogC7 1 10 ∧
    ∀ x ∈ resolveCandidates catalogC7 1 10,
      x.deal.upload_timestamp < rowC7.deal.upload_timestamp ∨
      (x.deal.upload_timestamp = rowC7.deal.upload_timestamp ∧
       x.offer.offer_id ≤ rowC7.offer.offer_id) :=
  offer_resolution_latest_scheme_then_highest_offer catalogC7 1 10 rowC7 rfl

/-- The discount/incentive computation of simulate_billing_api_call
(billing_system_mock.py lines 121-136): returns
(applied_discount, earned_incentive) from the offer's payout_type,
payout_value and is_dealer_incentive flag, the transaction total net_dp and
the quantity.  Both start at 0.0 and only the matching branch writes one. -/
def computeSupport (payout_type : String) (payout_value : ℚ)
    (is_dealer_incentive : Bool) (net_dp : ℚ) (quantity : Nat) : ℚ × ℚ :=
  if payout_type = "Percentage" then
    let payout_val := payout_value / 100
    if is_dealer_incentive then (0, net_dp * payout_val)
    else (net_dp * payout_val, 0)
  else if payout_type = "Fixed Amount" then
    if is_dealer_incentive then (0, payout_value * quantity)
    else (payout_value * quantity, 0)
  else (0, 0)

/-- The GST constant used by the mock (billing_system_mock.py line 139:
gst = net_dp_after_scheme_support * 0.18). -/
def GST_RATE : ℚ := 18 / 100

/-- The four derived amounts of one settlement. -/
structure PayoutResult where
  applied_discount : ℚ
  earned_incentive : ℚ
  net_dp_after_support : ℚ
  gst_amount : ℚ
deriving Repr, DecidableEq

/-- The amount computations of simulate_billing_api_call
(billing_system_mock.py lines 119-139): net_dp = base_dp * quantity, the
support split of `computeSupport`, net_dp_after_scheme_support =
net_dp - applied_discount, and GST at 18 percent of that net amount. -/
def computeSettlement (o : Offer) (base_dp : ℚ) (quantity : Nat) :
    PayoutResult :=
  let net_dp := base_dp * quantity
  let s := computeSupport o.payout_type o.payout_value o.is_dealer_incentive
    net_dp quantity
  { applied_discount := s.1
    earned_incentive := s.2
    net_dp_after_support := net_dp - s.1
    gst_amount := (net_dp - s.1) * GST_RATE }

/-- The per-unit conversion used when recording the transaction
(billing_system_mock.py lines 155-157): total / quantity if quantity > 0
else 0. -/
def per_unit (total : ℚ) (quantity : Nat) : ℚ :=
  if 0 < quantity then total / quantity else 0

/-- The incentive formula of the sales-simulation page
(app.py lines 1290-1293): Percentage offers pay
(dealer_price * payout_amount / 100) * quantity, anything else (Fixed or
other) pays payout_amount * quantity. -/
def app_incentive_amount (payout_type : String) (payout_amount : ℚ)
    (dealer_price : ℚ) (quantity : Nat) : ℚ :=
  if payout_type = "Percentage" then
    (dealer_price * payout_amount / 100) * quantity
  else payout_amount * quantity

/-- A row of the `sales_transactions` table
(database_setup.py lines 65-84), as filled by record_sale_transaction. -/
structure SalesTransaction where
  deal_id : Nat
  product_id : Nat
  offer_id : Nat
  quantity_sold : Nat
  dealer_price_dp : ℚ
  gst_amount : ℚ
  net_dp_after_support : ℚ
  applied_customer_discount_amount : ℚ
  earned_dealer_incentive_amount : ℚ
  billing_system_ref_id : String
deriving Repr, DecidableEq

/-- The value returned by simulate_billing_api_call: the success dict
(with the transaction it recorded and the total discount / incentive it
reports) or the error dict with its message. -/
inductive BillingResult where
  | success (t : SalesTransaction) (discount_amount earned_incentive : ℚ)
  | error (message : String)
deriving Repr, DecidableEq

/-- simulate_billing_api_call (billing_system_mock.py lines 95-181): resolve
the offer; with no offer return the error dict "No active offer found." and
record nothing; otherwise take base_dp from the product row (falling back to
10000 when the column is NULL or 0, Python truthiness of line 117), compute
the settlement amounts, and record one sales_transactions row whose monetary
support fields are stored per unit via `per_unit`. -/
def simulate_billing_api_call (c : Catalog) (pid quantity saleDate : Nat)
    (billing_ref : String) : BillingResult :=
  match get_active_deal_for_product c pid saleDate with
  | none => .error "No active offer found."
  | some row =>
    let base_dp : ℚ :=
      match row.product.dealer_price_dp with
      | some v => if v = 0 then 10000 else v
      | none => 10000
    let r := computeSettlement row.offer base_dp quantity
    .success
      { deal_id := row.offer.deal_id
        product_id := pid
        offer_id := row.offer.offer_id
        quantity_sold := quantity
        dealer_price_dp := base_dp
        gst_amount := r.gst_amount
        net_dp_after_support := per_unit r.net_dp_after_support quantity
        applied_customer_discount_amount := per_unit r.applied_discount quantity
        earned_dealer_incentive_amount := per_unit r.earned_incentive quantity
        billing_system_ref_id := billing_ref }
      r.applied_discount r.earned_incentive

def emptyCatalog : Catalog := { deals := [], products := [], offers := [] }

/-- Claim C2 counterexample: with no qualifying offer, offer resolution does
return NotFound (None), but simulate_billing_api_call then surfaces exactly
that absence to the caller as an error result and records no
SalesTransaction, refuting the claim that the settlement still records a
zero-payout transaction and never surfaces the absence as an error. -/
theorem no_offer_sale_returns_error :
    get_active_deal_for_product emptyCatalog 1 10 = none ∧
    simulate_billing_api_call emptyCatalog 1 1 10 "BILL_MOCK_123" =
      .error "No active offer found." :=
  ⟨rfl, rfl⟩

/-- Claim C2 (amended): when offer resolution finds no qualifying Offer it
returns NotFound (None, not an exception), and simulate_billing_api_call then
returns the error dict with message "No active offer found." without
recording any SalesTransaction - the sale is refused rather than settled with
zero payouts. -/
theorem no_offer_resolution_yields_error_result (c : Catalog)
    (pid quantity saleDate : Nat) (billing_ref : String)
    (h : resolveCandidates c pid saleDate = []) :
    get_active_deal_for_product c pid saleDate = none ∧
    simulate_billing_api_call c pid quantity saleDate billing_ref =
      .error "No active offer found." := by
  have hres : get_active_deal_for_product c pid saleDate = none := by
    rw [get_active_deal_for_product, h]
    rfl
  exact ⟨hres, by simp [simulate_billing_api_call, hres]⟩

theorem no_offer_resolution_yields_error_result_witness :
    get_active_deal_for_product emptyCatalog 1 10 = none ∧
    simulate_billing_api_call emptyCatalog 1 1 10 "BILL_MOCK_123" =
      .error "No active offer found." :=
  no_offer_resolution_yields_error_result emptyCatalog 1 1 10
    "BILL_MOCK_123" rfl

/-- Claim C3: a Percentage offer computes
applied_discount + earned_incentive = unitDealerPrice * quantity *
(payout_value / 100); a fixed-amount offer computes payout_value * quantity
(per-unit flat amount), both in the billing mock (payout_type string
"Fixed Amount") and in the app simulation page (any non-Percentage
payout_type, in particular "Fixed"); payout_value 500 with quantity 3 as a
dealer incentive yields earned_incentive 1500. -/
theorem payout_formulas_percentage_and_fixed (u payout_value : ℚ)
    (q : Nat) (inc : Bool) (hq : 0 < q) (hu : 0 < u) :
    (computeSupport "Percentage" payout_value inc (u * q) q).1 +
      (computeSupport "Percentage" payout_value inc (u * q) q).2 =
      u * q * (payout_value / 100) ∧
    (computeSupport "Fixed Amount" payout_value inc (u * q) q).1 +
      (computeSupport "Fixed Amount" payout_value inc (u * q) q).2 =
      payout_value * q ∧
    app_incentive_amount "Fixed" payout_value u q = payout_value * q ∧
    (computeSupport "Fixed Amount" 500 true (u * 3) 3).2 = 1500 := by
  cases inc <;>
    simp [computeSupport, app_incentive_amount] <;>
    norm_num

theorem payout_formulas_percentage_and_fixed_witness :
    (computeSupport "Percentage" 10 false ((25000 : ℚ) * 2) 2).1 +
      (computeSupport "Percentage" 10 false ((25000 : ℚ) * 2) 2).2 =
      (25000 : ℚ) * 2 * (10 / 100) ∧
    (computeSupport "Fixed Amount" 10 false ((25000 : ℚ) * 2) 2).1 +
      (computeSupport "Fixed Amount" 10 false ((25000 : ℚ) * 2) 2).2 =
      (10 : ℚ) * 2 ∧
    app_incentive_amount "Fixed" 10 25000 2 = (10 : ℚ) * 2 ∧
    (computeSupport "Fixed Amount" 500 true ((25000 : ℚ) * 3) 3).2 = 1500 :=
  payout_formulas_percentage_and_fixed 25000 10 2 false (by decide)
    (by norm_num)

/-- Claim C6: for every offer the support amount lands on exactly one side
chosen by is_dealer_incentive (the other side is 0),
net_dp_after_support = unitDealerPrice * quantity - applied_discount, and
gst_amount = net_dp_after_support * GST_RATE (18 percent); in particular a
dealer-incentive offer leaves the GST base at the full price
unitDealerPrice * quantity. -/
theorem settlement_split_net_and_gst (o : Offer) (u : ℚ) (q : Nat)
    (hq : 0 < q) (hu : 0 < u) :
    (o.is_dealer_incentive = true →
      (computeSettlement o u q).applied_discount = 0) ∧
    (o.is_dealer_incentive = false →
      (computeSettlement o u q).earned_incentive = 0) ∧
    (computeSettlement o u q).net_dp_after_support =
      u * q - (computeSettlement o u q).applied_discount ∧
    (computeSettlement o u q).gst_amount =
      (computeSettlement o u q).net_dp_after_support * GST_RATE ∧
    (o.is_dealer_incentive = true →
      (computeSettlement o u q).gst_amount = (u * q) * GST_RATE) := by
  by_cases h1 : o.payout_type = "Percentage" <;>
    by_cases h2 : o.payout_type = "Fixed Amount" <;>
    cases hinc : o.is_dealer_incentive <;>
    simp [computeSettlement, computeSupport, h1, h2, hinc]

theorem settlement_split_net_and_gst_witness :
    (offerC1.is_dealer_incentive = true →
      (computeSettlement offerC1 25000 2).applied_discount = 0) ∧
    (offerC1.is_dealer_incentive = false →
      (computeSettlement offerC1 25000 2).earned_incentive = 0) ∧
    (computeSettlement offerC1 25000 2).net_dp_after_support =
      (25000 : ℚ) * 2 - (computeSettlement offerC1 25000 2).applied_discount ∧
    (computeSettlement offerC1 25000 2).gst_amount =
      (computeSettlement offerC1 25000 2).net_dp_after_support * GST_RATE ∧
    (offerC1.is_dealer_incentive = true →
      (computeSettlement offerC1 25000 2).gst_amount =
        ((25000 : ℚ) * 2) * GST_RATE) :=
  settlement_split_net_and_gst offerC1 25000 2 (by decide) (by norm_num)

/-- Claim C9: the per-unit conversion applied to every computed total before
storage divides the total by the quantity when the quantity is positive, and
its guard returns 0 at quantity 0 instead of dividing, so it is defined on
all inputs. -/
theorem per_unit_division_guarded (total : ℚ) (q : Nat) :
    (0 < q → per_unit total q = total / q) ∧ per_unit total 0 = 0 := by
  constructor
  · intro hq
    simp [per_unit, hq]
  · simp [per_unit]

theorem per_unit_division_guarded_witness :
    per_unit (100 : ℚ) 4 = 100 / 4 ∧ per_unit (100 : ℚ) 0 = 0 :=
  ⟨(per_unit_division_guarded 100 4).1 (by decide),
   (per_unit_division_guarded 100 4).2⟩

/-- A row of the `dealer_targets` table (database_setup.py lines 87-100).
The table stores the goal and the is_achieved flag; it has no cumulative
achieved-amount column. -/
structure DealerTarget where
  target_id : Nat
  deal_id : Nat
  target_product_id : Option Nat
  target_product_group_description : Option String
  target_quantity : Nat
  target_value : Option ℚ
  target_metric : String
  is_achieved : Bool
deriving Repr, DecidableEq

/-- The WHERE clause of the target SELECT in update_dealer_targets
(billing_system_mock.py lines 76-79): deal_id matches AND
(target_product_id = sold product OR target_product_group_description IS NOT
NULL) AND is_achieved = 0.  SQL NULL = x is not true, which Option equality
against `some pid` reproduces. -/
def targetSelected (deal_id pid : Nat) (t : DealerTarget) : Bool :=
  t.deal_id == deal_id &&
  (t.target_product_id == some pid ||
    t.target_product_group_description.isSome) &&
  t.is_achieved == false

/-- The result set of the target SELECT of update_dealer_targets. -/
def selectTargets (deal_id pid : Nat) (targets : List DealerTarget) :
    List DealerTarget :=
  targets.filter (targetSelected deal_id pid)

/-- update_dealer_targets (billing_system_mock.py lines 72-91): it runs the
SELECT of `selectTargets` and loops over the result, but the loop body only
prints a diagnostic message - the function executes no UPDATE (its comments
defer the achievement logic), so the table state is returned unchanged. -/
def update_dealer_targets (deal_id pid quantity_sold : Nat)
    (targets : List DealerTarget) : List DealerTarget :=
  targets

def targetC5 : DealerTarget :=
  { target_id := 1, deal_id := 1, target_product_id := some 3,
    target_product_group_description := none, target_quantity := 5,
    target_value := none, target_metric := "Units Sold",
    is_achieved := false }

/-- Claim C5 failing input: a non-achieved Units Sold target of the sale's
scheme for the sold product, with target_quantity 5, hit by a sale of
quantity 5.  The claim requires the quantity to be added to the target's
cumulative achieved amount and is_achieved to become true; the code selects
the target (its WHERE clause matches) and then leaves the row byte-for-byte
unchanged (the dealer_targets schema has no cumulative column and the loop
body only prints), so is_achieved stays false. -/
theorem dealer_target_never_updated :
    targetSelected 1 3 targetC5 = true ∧
    targetC5.target_quantity ≤ 5 ∧
    update_dealer_targets 1 3 5 [targetC5] = [targetC5] ∧
    ((update_dealer_targets 1 3 5 [targetC5]).map
      DealerTarget.is_achieved) = [false] := by
  refine ⟨by decide, by decide, rfl, rfl⟩

/-- Claim C10: a dealer-target row is selected by the sale-update query
exactly when it belongs to the sale's deal, is not yet achieved, and either
its target_product_id equals the sold product or its product-group
description is merely non-null - hence every non-achieved group-described
target of the deal is selected for every sold product. -/
theorem target_selection_characterization (deal_id pid : Nat)
    (targets : List DealerTarget) (t : DealerTarget) :
    t ∈ selectTargets deal_id pid targets ↔
      t ∈ targets ∧ t.deal_id = deal_id ∧
      (t.target_product_id = some pid ∨
        t.target_product_group_description.isSome = true) ∧
      t.is_achieved = false := by
  simp only [selectTargets, List.mem_filter, targetSelected,
    Bool.and_eq_true, Bool.or_eq_true, beq_iff_eq]
  tauto

def targetC10 : DealerTarget :=
  { target_id := 2, deal_id := 1, target_product_id := some 99,
    target_product_group_description := some "Smart Phones",
    target_quantity := 10, target_value := none,
    target_metric := "Units Sold", is_achieved := false }

/-- A group-described target whose target_product_id is a different product
(99) is still selected when product 3 is sold. -/
theorem target_selection_characterization_witness :
    targetC10 ∈ selectTargets 1 3 [targetC10] :=
  (target_selection_characterization 1 3 [targetC10] targetC10).mpr
    ⟨by decide, by decide, Or.inr (by decide), by decide⟩

/-- Modelled from the spec: the repository stores an is_slab_based flag on
scheme_products rows (sample_data.py line 102) but contains no PayoutSlab
table and no slab-matching code, so the slab payout rule of section 4.2
item 1 of the specification is modelled from its words: a slab is a
[min_quantity, max_quantity] band (max NULL = unbounded) with a fixed
whole-transaction payout amount. -/
structure PayoutSlab where
  min_quantity : Nat
  max_quantity : Option Nat
  payout_amount : ℚ
deriving Repr, DecidableEq

/-- Modelled from the spec: the quantity lies within
[min_quantity, max_quantity], a NULL max meaning unbounded. -/
def slabMatches (quantity : Nat) (s : PayoutSlab) : Bool :=
  decide (s.min_quantity ≤ quantity) &&
  (match s.max_quantity with
   | none => true
   | some m => decide (quantity ≤ m))

/-- Modelled from the spec: the payout of a slab-based offer is the fixed
whole-transaction amount of the slab containing the quantity; if no slab
matches, the payout is 0 and a warning flag (the Bool component) is raised
instead of failing. -/
def slabPayout (slabs : List PayoutSlab) (quantity : Nat) : ℚ × Bool :=
  match slabs.find? (slabMatches quantity) with
  | some s => (s.payout_amount, false)
  | none => (0, true)

/-- The slabs of Scenario C: [1,5] pays 2000 and [6,NULL] pays 3500. -/
def slabsC4 : List PayoutSlab :=
  [{ min_quantity := 1, max_quantity := some 5, payout_amount := 2000 },
   { min_quantity := 6, max_quantity := none, payout_amount := 3500 }]

/-- Claim C4 (spec-modelled): when a quantity lies in the band of exactly one
slab, the payout is that slab's fixed whole-transaction amount with no
warning; when no slab contains the quantity the payout is 0 with the warning
flag set instead of a failure; on the Scenario C slabs, quantity 6 pays 3500
and quantity 5 pays 2000. -/
theorem slab_payout_by_quantity_band :
    (∀ (slabs : List PayoutSlab) (q : Nat) (s : PayoutSlab), s ∈ slabs →
      slabMatches q s = true →
      (∀ s2 ∈ slabs, slabMatches q s2 = true → s2 = s) →
      slabPayout slabs q = (s.payout_amount, false)) ∧
    (∀ (slabs : List PayoutSlab) (q : Nat),
      (∀ s ∈ slabs, slabMatches q s = false) →
      slabPayout slabs q = (0, true)) ∧
    slabPayout slabsC4 6 = (3500, false) ∧
    slabPayout slabsC4 5 = (2000, false) := by
  refine ⟨?_, ?_, by decide, by decide⟩
  · intro slabs q s hmem hmatch huniq
    unfold slabPayout
    cases hf : slabs.find? (slabMatches q) with
    | none =>
      rw [List.find?_eq_none] at hf
      exact absurd hmatch (by simpa using hf s hmem)
    | some s1 =>
      have h1 : slabMatches q s1 = true := List.find?_some hf
      have h2 : s1 ∈ slabs := List.mem_of_find?_eq_some hf
      rw [huniq s1 h2 h1]
  · intro slabs q hnone
    unfold slabPayout
    have : slabs.find? (slabMatches q) = none := by
      rw [List.find?_eq_none]
      intro s hs
      simp [hnone s hs]
    rw [this]

theorem slab_payout_by_quantity_band_witness :
    slabPayout slabsC4 6 =
      (({ min_quantity := 6, max_quantity := none,
          payout_amount := 3500 } : PayoutSlab).payout_amount, false) :=
  slab_payout_by_quantity_band.1 slabsC4 6
    { min_quantity := 6, max_quantity := none, payout_amount := 3500 }
    (by decide) (by decide) (by decide)

/-- The approval columns of a `schemes` row of the app schema
(sample_data.py lines 72-78, updated by app.py render_approvals). -/
structure SchemeRow where
  scheme_id : Nat
  approval_status : String
  approved_by : Option String
deriving Repr, DecidableEq

/-- A row of the `scheme_approvals` table (inserted by app.py line 842 with
requested_by "Current User" and approval_status "Pending", updated in place
by render_approvals). -/
structure ApprovalRow where
  approval_id : Nat
  scheme_id : Nat
  requested_by : String
  approval_status : String
  approved_by : Option String
  approval_notes : String
deriving Repr, DecidableEq

/-- The database state touched by the approval page. -/
structure ApprovalState where
  schemes : List SchemeRow
  approvals : List ApprovalRow
deriving Repr, DecidableEq

inductive Decision where
  | approve
  | reject
deriving Repr, DecidableEq

/-- The status string written by the two buttons of render_approvals. -/
def decisionStatus : Decision → String
  | .approve => "Approved"
  | .reject => "Rejected"

/-- The two UPDATE statements run by a button of render_approvals
(app.py lines 1738-1776): the scheme_approvals row with the clicked
approval_id gets the decision status and approved_by "Current User" (the
approver identity is hardcoded, line 1745), and the schemes row with its
scheme_id gets the same approval_status - Approve also sets the scheme's
approved_by to "Current User", Reject leaves it (lines 1772-1776). -/
def applyDecision (st : ApprovalState) (a : ApprovalRow) (dec : Decision) :
    ApprovalState :=
  { schemes := st.schemes.map fun s =>
      if s.scheme_id == a.scheme_id then
        match dec with
        | .approve => { s with approval_status := "Approved",
                               approved_by := some "Current User" }
        | .reject => { s with approval_status := "Rejected" }
      else s
    approvals := st.approvals.map fun b =>
      if b.approval_id == a.approval_id then
        { b with approval_status := decisionStatus dec,
                 approved_by := some "Current User" }
      else b }

/-- A decision on an approval request, as exposed by render_approvals
(app.py lines 1691-1776): the page queries only rows WHERE approval_status =
'Pending' (line 1704) and offers the Approve / Reject buttons solely on
those rows, so a decision reaches `applyDecision` only for a Pending
request.  The error branch follows the specification's DecideApproval
contract (ValidationError on a non-Pending scheme), which the source
realizes by not offering any action there. -/
def decideApproval (st : ApprovalState) (approval_id : Nat)
    (dec : Decision) : Except String ApprovalState :=
  match st.approvals.find?
      (fun b => b.approval_id == approval_id &&
        b.approval_status == "Pending") with
  | none => .error "ValidationError"
  | some a => .ok (applyDecision st a dec)

def schemeC8 : SchemeRow :=
  { scheme_id := 1, approval_status := "Pending", approved_by := none }

def approvalC8 : ApprovalRow :=
  { approval_id := 1, scheme_id := 1, requested_by := "Current User",
    approval_status := "Pending", approved_by := none,
    approval_notes := "Edit request" }

def stC8 : ApprovalState :=
  { schemes := [schemeC8], approvals := [approvalC8] }

/-- The state render_approvals leaves after Approve on `stC8`. -/
def stC8next : ApprovalState :=
  { schemes := [{ scheme_id := 1, approval_status := "Approved",
                  approved_by := some "Current User" }]
    approvals := [{ approval_id := 1, scheme_id := 1,
                    requested_by := "Current User",
                    approval_status := "Approved",
                    approved_by := some "Current User",
                    approval_notes := "Edit request" }] }

/-- Claim C8 counterexample: approving the Pending scheme does set
approval_status = Approved, but no audit row is appended - the existing
scheme_approvals request row is updated in place (the row count stays 1) -
and the recorded approver is the hardcoded "Current User" (app.py lines
1741-1745), so an approval by "Alice" cannot carry Alice's identity. -/
theorem approval_updates_row_in_place :
    decideApproval stC8 1 .approve = .ok stC8next ∧
    stC8next.approvals.length = stC8.approvals.length ∧
    (stC8next.approvals.map ApprovalRow.approved_by) =
      [some "Current User"] := by
  refine ⟨rfl, rfl, rfl⟩

/-- Claim C8 (amended): a decision succeeds only on a Pending approval
request; approving it sets the scheme's approval_status = Approved with
approved_by = "Current User", updates the existing request row in place to
Approved with approver "Current User" (no new audit row is appended - the
row count is unchanged), and any subsequent decision on the same request is
rejected as ValidationError. -/
theorem decide_approval_pending_only_then_terminal (st : ApprovalState)
    (aid : Nat) (a : ApprovalRow)
    (ha : st.approvals.find?
      (fun b => b.approval_id == aid &&
        b.approval_status == "Pending") = some a) :
    decideApproval st aid .approve = .ok (applyDecision st a .approve) ∧
    (∀ s ∈ (applyDecision st a .approve).schemes, s.scheme_id = a.scheme_id →
      s.approval_status = "Approved" ∧ s.approved_by = some "Current User") ∧
    (∀ b ∈ (applyDecision st a .approve).approvals, b.approval_id = aid →
      b.approval_status = "Approved" ∧ b.approved_by = some "Current User") ∧
    (applyDecision st a .approve).approvals.length = st.approvals.length ∧
    ∀ dec, decideApproval (applyDecision st a .approve) aid dec =
      .error "ValidationError" := by
  have hpa := List.find?_some ha
  simp only [Bool.and_eq_true, beq_iff_eq] at hpa
  obtain ⟨haid, -⟩ := hpa
  refine ⟨by simp [decideApproval, ha], ?_, ?_, ?_, ?_⟩
  · intro s hs hsid
    simp only [applyDecision, List.mem_map] at hs
    obtain ⟨s0, -, hEq⟩ := hs
    by_cases h : (s0.scheme_id == a.scheme_id) = true
    · rw [if_pos h] at hEq
      subst hEq
      exact ⟨rfl, rfl⟩
    · rw [if_neg h] at hEq
      subst hEq
      exact absurd hsid (by simpa using h)
  · intro b hb hbid
    simp only [applyDecision, List.mem_map] at hb
    obtain ⟨b0, -, hEq⟩ := hb
    by_cases h : (b0.approval_id == a.approval_id) = true
    · rw [if_pos h] at hEq
      subst hEq
      exact ⟨rfl, rfl⟩
    · rw [if_neg h] at hEq
      subst hEq
      exact absurd (hbid.trans haid.symm) (by simpa using h)
  · simp [applyDecision]
  · intro dec
    have hnone : (applyDecision st a .approve).approvals.find?
        (fun b => b.approval_id == aid &&
          b.approval_status == "Pending") = none := by
      rw [List.find?_eq_none]
      intro b hb
      simp only [applyDecision, List.mem_map] at hb
      obtain ⟨b0, -, hEq⟩ := hb
      by_cases h : (b0.approval_id == a.approval_id) = true
      · rw [if_pos h] at hEq
        subst hEq
        simp [decisionStatus]
      · rw [if_neg h] at hEq
        subst hEq
        simp only [Bool.and_eq_true, beq_iff_eq, not_and]
        intro hbid
        exact absurd (hbid.trans haid.symm) (by simpa using h)
    simp [decideApproval, hnone]

theorem decide_approval_pending_only_then_terminal_witness :
    decideApproval stC8 1 .approve =
      .ok (applyDecision stC8 approvalC8 .approve) ∧
    (∀ s ∈ (applyDecision stC8 approvalC8 .approve).schemes,
      s.scheme_id = approvalC8.scheme_id →
      s.approval_status = "Approved" ∧ s.approved_by = some "Current User") ∧
    (∀ b ∈ (applyDecision stC8 approvalC8 .approve).approvals,
      b.approval_id = 1 →
      b.approval_status = "Approved" ∧ b.approved_by = some "Current User") ∧
    (applyDecision stC8 approvalC8 .approve).approvals.length =
      stC8.approvals.length ∧
    ∀ dec, decideApproval (applyDecision stC8 approvalC8 .approve) 1 dec =
      .error "ValidationError" :=
  decide_approval_pending_only_then_terminal stC8 1 approvalC8 rfl

end DNS
